import Mathlib

/-!
# RJSUtil.hpp: native/script bridging helpers

A shallow embedding of `src/RJSUtil.hpp`.  The unit is a thin layer over the
JavaScriptCore C API.  Two fragments of that API are used:

* the object fragment (`JSObjectMake`, `JSObjectGetPrivate`, `JSObjectSetPrivate`,
  `JSObjectSetPrototype`, `JSClassCreate`), rendered over an explicit `Memory`;
* the value fragment (`JSValueIsNumber`, `JSValueToNumber`, `JSObjectGetProperty`, ...),
  kept abstract: an `Engine σ` is an arbitrary family of answers over an arbitrary
  engine state `σ`, so every theorem about the validated accessors holds for every
  behaviour the engine may show.

Handles (`JSValueRef`, `JSObjectRef`, `JSClassRef`, `void *`) are natural numbers and
`0` is the null pointer.  C++ `throw` is an `Except.error`.
-/

namespace RJS

/-! ## Handles and native errors -/

/-- The null pointer / null handle. -/
def NULL : Nat := 0

/-- A native address (`void *`, or the template parameter `T` once cast). -/
abbrev Ptr := Nat

/-- Handle of an engine value. -/
abbrev JSValueRef := Nat

/-- Handle of an engine object (in JavaScriptCore an object handle is a value handle). -/
abbrev JSObjectRef := Nat

/-- Handle of an engine class. -/
abbrev JSClassRef := Nat

/-- An engine string, taken by content. -/
abbrev JSStringRef := String

/-- The C++ exceptions thrown in this unit: `std::invalid_argument`, `std::runtime_error`
and `RJSException` (a `std::runtime_error` that also carries `m_jsException`). -/
inductive NativeError where
  | invalid_argument (what : String)
  | runtime_error (what : String)
  | RJSException (what : String) (m_jsException : JSValueRef)
  deriving DecidableEq, Repr

deriving instance DecidableEq for Except

/-! ## Argument-count guards (lines 63-73) -/

/-- Source: `RJSValidateArgumentCount`.  `void` is `Unit`. -/
def RJSValidateArgumentCount (argumentCount expected : Nat) : Except NativeError Unit :=
  if argumentCount ≠ expected then
    .error (.invalid_argument "Invalid arguments")
  else
    .ok ()

/-- Source: `RJSValidateArgumentRange`. -/
def RJSValidateArgumentRange (argumentCount min max : Nat) : Except NativeError Unit :=
  if argumentCount < min ∨ argumentCount > max then
    .error (.invalid_argument "Invalid arguments")
  else
    .ok ()

/-! ## Object fragment of the engine, and the native heap -/

/-- Type of `JSObjectFinalizeCallback`: a null function pointer, the instantiation
`RJSFinalize<T>` of this unit's finalize hook at a native type `T`, or any other
function (identified by its address). -/
inductive JSObjectFinalizeCallback where
  | null
  | RJSFinalize (T : String)
  | function (addr : Nat)
  deriving DecidableEq, Repr

/-- The JavaScriptCore record `JSClassDefinition` (declared in `JSObjectRef.h`).
Function pointers other than the finalizer, and table pointers, are addresses; the C
field holding the `JSObjectInitializeCallback` is `initializeCallback` here. -/
structure JSClassDefinition where
  version : Int
  attributes : Nat
  className : String
  parentClass : JSClassRef
  staticValues : Ptr
  staticFunctions : Ptr
  initializeCallback : Ptr
  finalize : JSObjectFinalizeCallback
  hasProperty : Ptr
  getProperty : Ptr
  setProperty : Ptr
  deleteProperty : Ptr
  getPropertyNames : Ptr
  callAsFunction : Ptr
  callAsConstructor : Ptr
  hasInstance : Ptr
  convertToType : Ptr
  deriving DecidableEq, Repr

/-- An engine object as far as this unit touches it: its class, its private slot and the
prototype installed by `JSObjectSetPrototype` (`none`: the class default, never replaced). -/
structure JSObject where
  jsClass : JSClassRef
  privateData : Ptr
  prototype : Option JSValueRef
  deriving DecidableEq, Repr

/-- Engine classes and objects together with the log of native objects destroyed by
`delete`.  Handle `k + 1` designates entry `k`; handle `0` is null. -/
structure Memory where
  classes : List JSClassDefinition
  objects : List JSObject
  deleted : List Ptr
  deriving DecidableEq, Repr

/-- Resolve an object handle. -/
def Memory.object? (m : Memory) (ref : JSObjectRef) : Option JSObject :=
  if ref = NULL then none else m.objects[ref - 1]?

/-- Resolve a class handle. -/
def Memory.class? (m : Memory) (ref : JSClassRef) : Option JSClassDefinition :=
  if ref = NULL then none else m.classes[ref - 1]?

/-- JavaScriptCore `JSClassCreate`: the engine keeps a copy of the definition and hands
out a fresh handle to it. -/
def JSClassCreate (m : Memory) (definition : JSClassDefinition) : JSClassRef × Memory :=
  (m.classes.length + 1, { m with classes := m.classes ++ [definition] })

/-- JavaScriptCore `JSObjectMake`: a fresh object of class `jsClass` whose private data is
`data`.  The default class (`jsClass = NULL`) allocates no storage for private data. -/
def JSObjectMake (m : Memory) (jsClass : JSClassRef) (data : Ptr) : JSObjectRef × Memory :=
  (m.objects.length + 1,
   { m with objects := m.objects ++
       [{ jsClass := jsClass
          privateData := if jsClass = NULL then NULL else data
          prototype := none }] })

/-- JavaScriptCore `JSObjectGetPrivate`: the private data, `NULL` when the object has none. -/
def JSObjectGetPrivate (m : Memory) (object : JSObjectRef) : Ptr :=
  match m.object? object with
  | some o => if o.jsClass = NULL then NULL else o.privateData
  | none => NULL

/-- JavaScriptCore `JSObjectSetPrivate`: stores `data` and answers `true` when the object
can store private data, answers `false` and changes nothing otherwise. -/
def JSObjectSetPrivate (m : Memory) (object : JSObjectRef) (data : Ptr) : Bool × Memory :=
  match m.object? object with
  | some o =>
    if o.jsClass = NULL then (false, m)
    else (true, { m with objects := m.objects.set (object - 1) { o with privateData := data } })
  | none => (false, m)

/-- JavaScriptCore `JSObjectSetPrototype`. -/
def JSObjectSetPrototype (m : Memory) (object : JSObjectRef) (value : JSValueRef) : Memory :=
  match m.object? object with
  | some o => { m with objects := m.objects.set (object - 1) { o with prototype := some value } }
  | none => m

/-- The C++ expression `delete p`: nothing happens for a null pointer, otherwise the
pointed-to native object is destroyed, which is recorded in the log. -/
def delete (m : Memory) (p : Ptr) : Memory :=
  if p = NULL then m else { m with deleted := p :: m.deleted }

/-! ## Native Object Wrapper and Class Descriptor Builder (lines 23-53) -/

/-- Source: `RJSFinalize<T>`. -/
def RJSFinalize (m : Memory) (object : JSObjectRef) : Memory :=
  let m1 := delete m (JSObjectGetPrivate m object)
  (JSObjectSetPrivate m1 object NULL).2

/-- Source: `RJSWrapObject<T>`; an omitted `prototype` is `NULL`. -/
def RJSWrapObject (m : Memory) (jsClass : JSClassRef) (object : Ptr)
    (prototype : JSValueRef) : JSObjectRef × Memory :=
  let (ref, m1) := JSObjectMake m jsClass object
  if prototype ≠ NULL then
    (ref, JSObjectSetPrototype m1 ref prototype)
  else
    (ref, m1)

/-- Source: `RJSGetInternal<T>`. -/
def RJSGetInternal (m : Memory) (jsObject : JSObjectRef) : Ptr :=
  JSObjectGetPrivate m jsObject

/-- Source: `RJSCreateWrapperClass<T>`.  The engine constant `kJSClassDefinitionEmpty` is a
parameter.  Every C++ default argument is `NULL` except `finalize`, whose default is
`RJSFinalize<T>`: an omitted finalizer is `none`, a supplied one (null included) is `some`. -/
def RJSCreateWrapperClass (kJSClassDefinitionEmpty : JSClassDefinition) (m : Memory)
    (T : String) (name : String) (getter : Ptr) (setter : Ptr) (funcs : Ptr)
    (finalize : Option JSObjectFinalizeCallback) (propertyNames : Ptr) :
    JSClassRef × Memory :=
  let finalize := finalize.getD (.RJSFinalize T)
  let classDefinition := kJSClassDefinitionEmpty
  let classDefinition := { classDefinition with className := name }
  let classDefinition := { classDefinition with finalize := finalize }
  let classDefinition := { classDefinition with getProperty := getter }
  let classDefinition := { classDefinition with setProperty := setter }
  let classDefinition := { classDefinition with staticFunctions := funcs }
  let classDefinition := { classDefinition with getPropertyNames := propertyNames }
  JSClassCreate m classDefinition

/-! ## Value fragment of the engine -/

/-- A C `double`: a finite value (every finite double is a rational number), a NaN, or an
infinity. -/
inductive Double where
  | finite (q : ℚ)
  | nan
  | infinity (negative : Bool)
  deriving DecidableEq

/-- Width of `size_t` in bits. -/
def SIZE_WIDTH : Nat := 64

/-- The implicit C++ conversion `double → size_t`: the fractional part is discarded
(truncation toward zero); when the truncated value is not representable in `size_t` the
behaviour is undefined, which is `none` here. -/
def doubleToSizeT : Double → Option Nat
  | .finite q =>
    let t := Int.tdiv q.num q.den
    if 0 ≤ t ∧ t < 2 ^ SIZE_WIDTH then some t.toNat else none
  | .nan => none
  | .infinity _ => none

/-- The JavaScriptCore calls made by the validated accessors, over an engine state `σ`
that stands for the context `ctx`.  A call that takes a `JSValueRef *exception` answers
with its return value paired with the content of `*exception` after the call (`NULL`: the
engine raised nothing), and with the next engine state, since such a call may run script
code.  The last field is this repository's `RJSValidatedStringForValue`, which is declared
in the header and defined elsewhere; its third argument is the optional `name`. -/
structure Engine (σ : Type) where
  JSValueIsNumber : σ → JSValueRef → Bool
  JSValueIsUndefined : σ → JSValueRef → Bool
  JSValueToNumber : σ → JSValueRef → (Double × JSValueRef) × σ
  JSValueToObject : σ → JSValueRef → (JSObjectRef × JSValueRef) × σ
  JSObjectGetProperty : σ → JSObjectRef → JSStringRef → (JSValueRef × JSValueRef) × σ
  JSObjectGetPropertyAtIndex : σ → JSObjectRef → Nat → (JSValueRef × JSValueRef) × σ
  JSValueIsInstanceOfConstructor : σ → JSValueRef → JSObjectRef → (Bool × JSValueRef) × σ
  JSContextGetGlobalObject : σ → JSObjectRef
  RJSValidatedStringForValue : σ → JSValueRef → Option String → Except NativeError String × σ

/-! ## Exception Bridge (lines 75-87) -/

/-- Source: `class RJSException`: the `std::runtime_error` message and `m_jsException`. -/
structure RJSException where
  what : String
  m_jsException : JSValueRef
  deriving DecidableEq, Repr

/-- Source: the constructor `RJSException(ctx, ex)`.  The base-class initialiser evaluates
`RJSValidatedStringForValue(ctx, ex, "exception")` first; if that throws, no exception
object is constructed and the thrown error propagates. -/
def RJSException.new {σ : Type} (E : Engine σ) (ctx : σ) (ex : JSValueRef) :
    Except NativeError RJSException × σ :=
  match E.RJSValidatedStringForValue ctx ex (some "exception") with
  | (.ok message, ctx1) => (.ok { what := message, m_jsException := ex }, ctx1)
  | (.error err, ctx1) => (.error err, ctx1)

/-- Source: `RJSException::exception()`. -/
def RJSException.exception (self : RJSException) : JSValueRef :=
  self.m_jsException

/-- The statement `throw RJSException(ctx, exception);`. -/
def throwRJSException {σ α : Type} (E : Engine σ) (ctx : σ) (exception : JSValueRef) :
    Except NativeError α × σ :=
  match RJSException.new E ctx exception with
  | (.ok e, ctx1) => (.error (.RJSException e.what e.m_jsException), ctx1)
  | (.error err, ctx1) => (.error err, ctx1)

/-! ## Value Coercion and Property/Element Accessors (lines 89-173) -/

/-- Source: `RJSValidatedValueToObject`.  `JSValueToObject` is called with a `NULL`
exception pointer, so whatever the engine raised is not available to the caller. -/
def RJSValidatedValueToObject {σ : Type} (E : Engine σ) (ctx : σ) (value : JSValueRef)
    (message : Option String) : Except NativeError JSObjectRef × σ :=
  let ((object, _), ctx1) := E.JSValueToObject ctx value
  if object = NULL then
    (.error (.runtime_error (message.getD "Value is not an object.")), ctx1)
  else
    (.ok object, ctx1)

/-- Source: `RJSValidatedValueToNumber`. -/
def RJSValidatedValueToNumber {σ : Type} (E : Engine σ) (ctx : σ) (value : JSValueRef) :
    Except NativeError Double × σ :=
  if !E.JSValueIsNumber ctx value then
    (.error (.runtime_error "Value is not a number"), ctx)
  else
    let ((number, exception), ctx1) := E.JSValueToNumber ctx value
    if exception ≠ NULL then
      throwRJSException E ctx1 exception
    else
      (.ok number, ctx1)

/-- Source: `RJSValidatedPropertyValue`. -/
def RJSValidatedPropertyValue {σ : Type} (E : Engine σ) (ctx : σ) (object : JSObjectRef)
    (property : JSStringRef) : Except NativeError JSValueRef × σ :=
  let ((propertyValue, exception), ctx1) := E.JSObjectGetProperty ctx object property
  if exception ≠ NULL then
    throwRJSException E ctx1 exception
  else
    (.ok propertyValue, ctx1)

/-- Source: `RJSValidatedObjectProperty`. -/
def RJSValidatedObjectProperty {σ : Type} (E : Engine σ) (ctx : σ) (object : JSObjectRef)
    (property : JSStringRef) (err : Option String) : Except NativeError JSObjectRef × σ :=
  match RJSValidatedPropertyValue E ctx object property with
  | (.error e, ctx1) => (.error e, ctx1)
  | (.ok propertyValue, ctx1) =>
    if E.JSValueIsUndefined ctx1 propertyValue then
      (.error (.runtime_error (err.getD "Object property is undefined")), ctx1)
    else
      RJSValidatedValueToObject E ctx1 propertyValue err

/-- Source: `RJSValidatedArrayLength`.  The `double` obtained from
`RJSValidatedValueToNumber` is converted to the return type `size_t` by the `return`
statement; `ok none` is the undefined behaviour of an unrepresentable conversion. -/
def RJSValidatedArrayLength {σ : Type} (E : Engine σ) (ctx : σ) (object : JSObjectRef) :
    Except NativeError (Option Nat) × σ :=
  let lengthString : JSStringRef := "length"
  let ((lengthValue, exception), ctx1) := E.JSObjectGetProperty ctx object lengthString
  if exception ≠ NULL then
    throwRJSException E ctx1 exception
  else if !E.JSValueIsNumber ctx1 lengthValue then
    (.error (.runtime_error "Missing property 'length'"), ctx1)
  else
    match RJSValidatedValueToNumber E ctx1 lengthValue with
    | (.error e, ctx2) => (.error e, ctx2)
    | (.ok number, ctx2) => (.ok (doubleToSizeT number), ctx2)

/-- Values of the sample engine.  An object lists its data properties and the properties
whose getter throws (with the thrown value). -/
inductive SampleValue where
  | undefined
  | number (d : Double)
  | string (s : String)
  | object (properties : List (String × JSValueRef)) (throwing : List (String × JSValueRef))
  deriving DecidableEq

/-- The heap of the sample engine; handle `k + 1` designates entry `k`. -/
def sampleHeap : List SampleValue :=
  [ .undefined,                                   -- 1
    .number (.finite 5),                          -- 2
    .string "boom",                               -- 3
    .object [("length", 2)] [],                   -- 4: array-like of length 5
    .object [] [],                                -- 5: an empty object
    .number (.finite 18446744073709551616),       -- 6: the number 2^64
    .object [("length", 6)] [],                   -- 7: an object whose length is 2^64
    .object [] [("length", 3), ("bad", 3)],       -- 8: getters throw the string "boom"
    .object [("Array", 10)] [],                   -- 9: the global object
    .object [] [],                                -- 10: a constructor
    .object [("message", 3)] [],                  -- 11: an error object
    .object [] [],                                -- 12: a wrapper object
    .object [] [("bad", 11)] ]                    -- 13: a getter throws the error object 11

/-- Resolve a handle of the sample engine. -/
def sampleValue (v : JSValueRef) : SampleValue :=
  if v = NULL then .undefined else sampleHeap.getD (v - 1) .undefined

/-- Property lookup in the sample engine: a throwing getter sets the exception and
returns `NULL`; an absent property is the value `undefined` (handle 1). -/
def sampleGetProperty (object : JSObjectRef) (property : String) : JSValueRef × JSValueRef :=
  match sampleValue object with
  | .object properties throwing =>
    match throwing.lookup property with
    | some e => (NULL, e)
    | none =>
      match properties.lookup property with
      | some v => (v, NULL)
      | none => (1, NULL)
  | _ => (1, NULL)

/-- Modelled from the spec: `RJSValidatedStringForValue` is declared at line 58 and defined
outside this unit.  Spec 2 and 4.2: a "validated conversion" of a script value into native
text "with typed failure on mismatch", which takes "a name tag for richer error messages".
A string converts to its content; any other value fails with a type-mismatch error that
carries the name tag (the spec fixes no message text), before any engine call. -/
def sampleValidatedStringForValue (ctx : Nat) (value : JSValueRef) (name : Option String) :
    Except NativeError String × Nat :=
  match sampleValue value with
  | .string s => (.ok s, ctx + 1)
  | _ => (.error (.runtime_error (name.getD "value" ++ " is not a string")), ctx)

/-- The sample engine.  Converting `undefined` to an object raises the error object 11 and
returns `NULL`; primitives convert to the wrapper object 12. -/
def sampleEngine : Engine Nat where
  JSValueIsNumber := fun _ v =>
    match sampleValue v with
    | .number _ => true
    | _ => false
  JSValueIsUndefined := fun _ v =>
    match sampleValue v with
    | .undefined => true
    | _ => false
  JSValueToNumber := fun ctx v =>
    match sampleValue v with
    | .number d => ((d, NULL), ctx + 1)
    | _ => ((.nan, NULL), ctx + 1)
  JSValueToObject := fun ctx v =>
    match sampleValue v with
    | .undefined => ((NULL, 11), ctx + 1)
    | .object _ _ => ((v, NULL), ctx + 1)
    | _ => ((12, NULL), ctx + 1)
  JSObjectGetProperty := fun ctx object property => (sampleGetProperty object property, ctx + 1)
  JSObjectGetPropertyAtIndex := fun ctx object index =>
    (sampleGetProperty object (toString index), ctx + 1)
  JSValueIsInstanceOfConstructor := fun ctx _ _ => ((false, NULL), ctx + 1)
  JSContextGetGlobalObject := fun _ => 9
  RJSValidatedStringForValue := sampleValidatedStringForValue

/-! ## Helper lemmas on the object store -/

theorem delete_objects (m : Memory) (p : Ptr) : (delete m p).objects = m.objects := by
  unfold delete
  split <;> rfl

theorem getPrivate_delete (m : Memory) (p : Ptr) (x : JSObjectRef) :
    JSObjectGetPrivate (delete m p) x = JSObjectGetPrivate m x := by
  simp [JSObjectGetPrivate, Memory.object?, delete_objects]

theorem setPrivate_deleted (m : Memory) (x : JSObjectRef) (d : Ptr) :
    (JSObjectSetPrivate m x d).2.deleted = m.deleted := by
  unfold JSObjectSetPrivate
  split
  · split <;> rfl
  · rfl

theorem getPrivate_setPrivate_null (m : Memory) (x : JSObjectRef) :
    JSObjectGetPrivate (JSObjectSetPrivate m x NULL).2 x = NULL := by
  unfold JSObjectSetPrivate
  cases hx : m.object? x with
  | none => simp [JSObjectGetPrivate, hx]
  | some o =>
    by_cases hc : o.jsClass = NULL
    · simp [JSObjectGetPrivate, hx, hc]
    · simp only [hc, if_false]
      unfold Memory.object? at hx
      by_cases h0 : x = NULL
      · simp [h0] at hx
      · simp only [h0, if_false] at hx
        have hlt : x - 1 < m.objects.length := by
          rcases List.getElem?_eq_some_iff.mp hx with ⟨h, _⟩
          exact h
        simp [JSObjectGetPrivate, Memory.object?, h0, List.getElem?_set_self, hlt]

theorem finalize_deleted (m : Memory) (x : JSObjectRef) :
    (RJSFinalize m x).deleted = (delete m (JSObjectGetPrivate m x)).deleted := by
  simp [RJSFinalize, setPrivate_deleted]

theorem getPrivate_finalize (m : Memory) (x : JSObjectRef) :
    JSObjectGetPrivate (RJSFinalize m x) x = NULL := by
  simp [RJSFinalize, getPrivate_setPrivate_null]

theorem object?_make_old (m : Memory) (jsClass : JSClassRef) (data : Ptr) :
    m.object? (JSObjectMake m jsClass data).1 = none := by
  simp [Memory.object?, JSObjectMake, NULL]

theorem object?_make_new (m : Memory) (jsClass : JSClassRef) (data : Ptr) :
    (JSObjectMake m jsClass data).2.object? (JSObjectMake m jsClass data).1 =
      some { jsClass := jsClass
             privateData := if jsClass = NULL then NULL else data
             prototype := none } := by
  simp [Memory.object?, JSObjectMake, NULL]

theorem object?_setPrototype (m : Memory) (x : JSObjectRef) (v : JSValueRef) (o : JSObject)
    (h : m.object? x = some o) :
    (JSObjectSetPrototype m x v).object? x = some { o with prototype := some v } := by
  unfold JSObjectSetPrototype
  simp only [h]
  unfold Memory.object? at h ⊢
  by_cases h0 : x = NULL
  · simp [h0] at h
  · simp only [h0, if_false] at h ⊢
    have hlt : x - 1 < m.objects.length := by
      rcases List.getElem?_eq_some_iff.mp h with ⟨hl, _⟩
      exact hl
    simp [List.getElem?_set_self, hlt]

theorem object?_wrap (m : Memory) (jsClass : JSClassRef) (p : Ptr) (proto : JSValueRef) :
    (RJSWrapObject m jsClass p proto).2.object? (RJSWrapObject m jsClass p proto).1 =
      some { jsClass := jsClass
             privateData := if jsClass = NULL then NULL else p
             prototype := if proto = NULL then none else some proto } := by
  unfold RJSWrapObject
  by_cases hp : proto = NULL
  · simp only [hp, ne_eq, not_true_eq_false, if_false, if_true]
    exact object?_make_new m jsClass p
  · simp only [hp, ne_eq, not_false_eq_true, if_true, if_false]
    exact object?_setPrototype _ _ _ _ (object?_make_new m jsClass p)

/-! ## Theorems: argument-count guards -/

/-- C5: `RJSValidateArgumentCount(actual, expected)` succeeds exactly when
`actual == expected` and fails with `std::invalid_argument("Invalid arguments")` exactly
when they differ; (2,2) succeeds, (1,2) and (3,2) fail. -/
theorem validateArgumentCount_spec (actual expected : Nat) :
    (RJSValidateArgumentCount actual expected = .ok () ↔ actual = expected) ∧
    (RJSValidateArgumentCount actual expected = .error (.invalid_argument "Invalid arguments")
      ↔ actual ≠ expected) ∧
    RJSValidateArgumentCount 2 2 = .ok () ∧
    RJSValidateArgumentCount 1 2 = .error (.invalid_argument "Invalid arguments") ∧
    RJSValidateArgumentCount 3 2 = .error (.invalid_argument "Invalid arguments") := by
  refine ⟨?_, ?_, by decide, by decide, by decide⟩
  · unfold RJSValidateArgumentCount
    by_cases h : actual = expected <;> simp [h]
  · unfold RJSValidateArgumentCount
    by_cases h : actual = expected <;> simp [h]

/-- C6: `RJSValidateArgumentRange(actual, min, max)` succeeds exactly when
`min <= actual <= max` and fails with `std::invalid_argument("Invalid arguments")` exactly
otherwise; it fails for every `actual` when `min > max`; with `min = max = k` it succeeds
exactly when `RJSValidateArgumentCount(actual, k)` does; (2,1,3) succeeds, (0,1,3) fails. -/
theorem validateArgumentRange_spec (actual min max : Nat) :
    (RJSValidateArgumentRange actual min max = .ok () ↔ min ≤ actual ∧ actual ≤ max) ∧
    (RJSValidateArgumentRange actual min max = .error (.invalid_argument "Invalid arguments")
      ↔ ¬ (min ≤ actual ∧ actual ≤ max)) ∧
    (max < min →
      RJSValidateArgumentRange actual min max = .error (.invalid_argument "Invalid arguments")) ∧
    (RJSValidateArgumentRange actual min min = .ok () ↔
      RJSValidateArgumentCount actual min = .ok ()) ∧
    RJSValidateArgumentRange 2 1 3 = .ok () ∧
    RJSValidateArgumentRange 0 1 3 = .error (.invalid_argument "Invalid arguments") := by
  have h1 : RJSValidateArgumentRange actual min max = .ok () ↔ min ≤ actual ∧ actual ≤ max := by
    unfold RJSValidateArgumentRange
    by_cases h : actual < min ∨ actual > max
    · simp only [h, if_true]
      constructor
      · intro hc; cases hc
      · intro hc; omega
    · simp only [h, if_false, true_iff]
      omega
  have h2 : RJSValidateArgumentRange actual min max =
      .error (.invalid_argument "Invalid arguments") ↔ ¬ (min ≤ actual ∧ actual ≤ max) := by
    unfold RJSValidateArgumentRange
    by_cases h : actual < min ∨ actual > max
    · simp only [h, if_true, true_iff]
      omega
    · simp only [h, if_false]
      constructor
      · intro hc; cases hc
      · intro hc; omega
  refine ⟨h1, h2, ?_, ?_, by decide, by decide⟩
  · intro hlt
    exact h2.mpr (by omega)
  · have hk : RJSValidateArgumentRange actual min min = .ok () ↔ actual = min := by
      unfold RJSValidateArgumentRange
      by_cases h : actual < min ∨ actual > min
      · simp only [h, if_true]
        constructor
        · intro hc; cases hc
        · intro hc; omega
      · simp only [h, if_false, true_iff]
        omega
    rw [hk]
    unfold RJSValidateArgumentCount
    by_cases h : actual = min <;> simp [h]

/-- Witness of C6 at `actual = 2, min = 3, max = 1`, an empty range. -/
theorem validateArgumentRange_spec_witness :
    (1 : Nat) < 3 ∧
    RJSValidateArgumentRange 2 3 1 = .error (.invalid_argument "Invalid arguments") :=
  ⟨by decide, (validateArgumentRange_spec 2 3 1).2.2.1 (by decide)⟩

/-! ## Theorems: Native Object Wrapper and Class Descriptor Builder -/

/-- C1: if the private slot of `x` holds the non-null native pointer `o`, then
`RJSFinalize` on `x` destroys `o` and leaves the slot null; a second run destroys nothing
further, so over both runs `o` is destroyed exactly once; `RJSGetInternal` on `x` after
finalization is null and not the stale pointer; and running the hook on any object whose
slot is null destroys nothing. -/
theorem finalize_destroys_exactly_once (m : Memory) (x : JSObjectRef) (o : Ptr)
    (hwrap : JSObjectGetPrivate m x = o) (ho : o ≠ NULL) :
    (RJSFinalize m x).deleted = o :: m.deleted ∧
    JSObjectGetPrivate (RJSFinalize m x) x = NULL ∧
    (RJSFinalize (RJSFinalize m x) x).deleted = (RJSFinalize m x).deleted ∧
    List.count o (RJSFinalize (RJSFinalize m x) x).deleted = List.count o m.deleted + 1 ∧
    RJSGetInternal (RJSFinalize m x) x = NULL ∧
    RJSGetInternal (RJSFinalize m x) x ≠ o ∧
    (∀ (m0 : Memory) (y : JSObjectRef),
      JSObjectGetPrivate m0 y = NULL → (RJSFinalize m0 y).deleted = m0.deleted) := by
  have h1 : (RJSFinalize m x).deleted = o :: m.deleted := by
    rw [finalize_deleted, hwrap]
    simp [delete, ho]
  have h2 : JSObjectGetPrivate (RJSFinalize m x) x = NULL := getPrivate_finalize m x
  have h3 : (RJSFinalize (RJSFinalize m x) x).deleted = (RJSFinalize m x).deleted := by
    rw [finalize_deleted (RJSFinalize m x) x, h2]
    simp [delete]
  refine ⟨h1, h2, h3, ?_, h2, ?_, ?_⟩
  · rw [h3, h1]
    simp
  · have h5 : RJSGetInternal (RJSFinalize m x) x = NULL := h2
    rw [h5]
    exact fun h => ho h.symm
  · intro m0 y hy
    rw [finalize_deleted, hy]
    simp [delete]

/-- Witness of C1: the object made by wrapping the native pointer 42 in an empty memory. -/
theorem finalize_destroys_exactly_once_witness :
    JSObjectGetPrivate (RJSWrapObject ⟨[], [], []⟩ 1 42 NULL).2 1 = 42 ∧
    (RJSFinalize (RJSWrapObject ⟨[], [], []⟩ 1 42 NULL).2 1).deleted = [42] ∧
    RJSGetInternal (RJSFinalize (RJSWrapObject ⟨[], [], []⟩ 1 42 NULL).2 1) 1 = NULL :=
  have h := finalize_destroys_exactly_once (RJSWrapObject ⟨[], [], []⟩ 1 42 NULL).2 1 42
    (by decide) (by decide)
  ⟨by decide, h.1, h.2.2.2.2.1⟩

/-- C9: for a class handle `jsClass` (non-null), `RJSWrapObject` returns a handle that was
not in use before, designating an object of class `jsClass` whose private slot holds `p`,
so `RJSGetInternal` on the result is `p`; the object carries the prototype `proto` exactly
when a non-null `proto` was passed and keeps the class default otherwise; the stored
pointer is the same with and without a prototype. -/
theorem wrapObject_getInternal (m : Memory) (jsClass : JSClassRef) (p : Ptr)
    (proto : JSValueRef) (hcls : jsClass ≠ NULL) :
    m.object? (RJSWrapObject m jsClass p proto).1 = none ∧
    ((RJSWrapObject m jsClass p proto).2.object? (RJSWrapObject m jsClass p proto).1).map
      JSObject.jsClass = some jsClass ∧
    RJSGetInternal (RJSWrapObject m jsClass p proto).2 (RJSWrapObject m jsClass p proto).1 = p ∧
    (((RJSWrapObject m jsClass p proto).2.object? (RJSWrapObject m jsClass p proto).1).bind
      JSObject.prototype = some proto ↔ proto ≠ NULL) ∧
    (((RJSWrapObject m jsClass p proto).2.object? (RJSWrapObject m jsClass p proto).1).bind
      JSObject.prototype = none ↔ proto = NULL) ∧
    RJSGetInternal (RJSWrapObject m jsClass p proto).2 (RJSWrapObject m jsClass p proto).1 =
      RJSGetInternal (RJSWrapObject m jsClass p NULL).2 (RJSWrapObject m jsClass p NULL).1 := by
  have hobj := object?_wrap m jsClass p proto
  have hget : ∀ q, RJSGetInternal (RJSWrapObject m jsClass p q).2
      (RJSWrapObject m jsClass p q).1 = p := by
    intro q
    simp [RJSGetInternal, JSObjectGetPrivate, object?_wrap, hcls]
  refine ⟨?_, ?_, hget proto, ?_, ?_, ?_⟩
  · have hfst : (RJSWrapObject m jsClass p proto).1 = (JSObjectMake m jsClass p).1 := by
      unfold RJSWrapObject
      by_cases hp : proto = NULL <;> simp [hp, JSObjectMake]
    rw [hfst]
    exact object?_make_old m jsClass p
  · rw [hobj]
    rfl
  · rw [hobj]
    by_cases hp : proto = NULL <;> simp [hp]
  · rw [hobj]
    by_cases hp : proto = NULL <;> simp [hp]
  · rw [hget proto, hget NULL]

/-- Witness of C9: wrapping 42 into class 1 with prototype 7 in an empty memory. -/
theorem wrapObject_getInternal_witness :
    (1 : Nat) ≠ NULL ∧
    RJSGetInternal (RJSWrapObject ⟨[], [], []⟩ 1 42 7).2 (RJSWrapObject ⟨[], [], []⟩ 1 42 7).1
      = 42 :=
  ⟨by decide, (wrapObject_getInternal ⟨[], [], []⟩ 1 42 7 (by decide)).2.2.1⟩

/-- C10: the class created by `RJSCreateWrapperClass` is new, and its definition has the
supplied name, get hook, set hook, static function table and enumeration hook, the
finalize hook `RJSFinalize<T>` when none was supplied and the supplied one (a null or
no-op one included) otherwise, and `kJSClassDefinitionEmpty` in every other field. -/
theorem createWrapperClass_definition (kJSClassDefinitionEmpty : JSClassDefinition)
    (m : Memory) (T name : String) (getter setter funcs : Ptr)
    (finalize : Option JSObjectFinalizeCallback) (propertyNames : Ptr) :
    m.class? (RJSCreateWrapperClass kJSClassDefinitionEmpty m T name getter setter funcs
      finalize propertyNames).1 = none ∧
    (RJSCreateWrapperClass kJSClassDefinitionEmpty m T name getter setter funcs
      finalize propertyNames).2.class?
      (RJSCreateWrapperClass kJSClassDefinitionEmpty m T name getter setter funcs
        finalize propertyNames).1 =
      some { version := kJSClassDefinitionEmpty.version
             attributes := kJSClassDefinitionEmpty.attributes
             className := name
             parentClass := kJSClassDefinitionEmpty.parentClass
             staticValues := kJSClassDefinitionEmpty.staticValues
             staticFunctions := funcs
             initializeCallback := kJSClassDefinitionEmpty.initializeCallback
             finalize :=
               match finalize with
               | none => JSObjectFinalizeCallback.RJSFinalize T
               | some supplied => supplied
             hasProperty := kJSClassDefinitionEmpty.hasProperty
             getProperty := getter
             setProperty := setter
             deleteProperty := kJSClassDefinitionEmpty.deleteProperty
             getPropertyNames := propertyNames
             callAsFunction := kJSClassDefinitionEmpty.callAsFunction
             callAsConstructor := kJSClassDefinitionEmpty.callAsConstructor
             hasInstance := kJSClassDefinitionEmpty.hasInstance
             convertToType := kJSClassDefinitionEmpty.convertToType } := by
  constructor
  · simp [RJSCreateWrapperClass, JSClassCreate, Memory.class?, NULL]
  · cases finalize <;> simp [RJSCreateWrapperClass, JSClassCreate, Memory.class?, NULL]

/-! ## Helper lemmas on the validated accessors -/

theorem valueToNumber_of_isNumber {σ : Type} (E : Engine σ) (ctx ctx1 : σ) (v : JSValueRef)
    (d : Double) (e : JSValueRef) (hnum : E.JSValueIsNumber ctx v = true)
    (hto : E.JSValueToNumber ctx v = ((d, e), ctx1)) :
    RJSValidatedValueToNumber E ctx v =
      if e ≠ NULL then throwRJSException E ctx1 e else (.ok d, ctx1) := by
  simp [RJSValidatedValueToNumber, hnum, hto]

theorem arrayLength_of_isNumber {σ : Type} (E : Engine σ) (ctx ctx1 ctx2 : σ)
    (obj : JSObjectRef) (lv : JSValueRef) (d : Double) (e : JSValueRef)
    (hget : E.JSObjectGetProperty ctx obj "length" = ((lv, NULL), ctx1))
    (hnum : E.JSValueIsNumber ctx1 lv = true)
    (hto : E.JSValueToNumber ctx1 lv = ((d, e), ctx2)) :
    RJSValidatedArrayLength E ctx obj =
      if e ≠ NULL then throwRJSException E ctx2 e else (.ok (doubleToSizeT d), ctx2) := by
  unfold RJSValidatedArrayLength
  simp only [hget, hnum, valueToNumber_of_isNumber E ctx1 ctx2 lv d e hnum hto]
  by_cases he : e = NULL
  · simp [he]
  · simp only [ne_eq, not_true_eq_false, if_false, Bool.not_true, Bool.false_eq_true, he,
      not_false_eq_true, if_true]
    unfold throwRJSException
    cases hnew : RJSException.new E ctx2 e with
    | mk r c => cases r <;> rfl

theorem doubleToSizeT_natCast (n : Nat) (hn : n < 2 ^ SIZE_WIDTH) :
    doubleToSizeT (.finite (n : ℚ)) = some n := by
  have hlt : (n : Int) < 2 ^ SIZE_WIDTH := by exact_mod_cast hn
  simp [doubleToSizeT, hlt]

/-! ## Theorems: Exception Bridge -/

/-- C4 (as stated, refuted): on the string "boom" of the sample engine, which is not a
number, `RJSValidatedValueToNumber` fails with the message "Value is not a number", which
is not the text "not a number". -/
theorem valueToNumber_message_text :
    sampleEngine.JSValueIsNumber 0 3 = false ∧
    RJSValidatedValueToNumber sampleEngine 0 3 =
      (.error (.runtime_error "Value is not a number"), 0) ∧
    (RJSValidatedValueToNumber sampleEngine 0 3).1 ≠ .error (.runtime_error "not a number") := by
  decide

/-- C4 (amended): if `v` is not a number, `RJSValidatedValueToNumber` fails with
`std::runtime_error("Value is not a number")` in the unchanged engine state, and does so
whatever `JSValueToNumber` would do, so the conversion is not invoked; if `v` is a number
and the conversion raises no exception, the call returns exactly the double the
conversion produced. -/
theorem valueToNumber_spec {σ : Type} (E : Engine σ) (ctx : σ) (v : JSValueRef) :
    (E.JSValueIsNumber ctx v = false →
      RJSValidatedValueToNumber E ctx v =
        (.error (.runtime_error "Value is not a number"), ctx) ∧
      ∀ toNumber : σ → JSValueRef → (Double × JSValueRef) × σ,
        RJSValidatedValueToNumber { E with JSValueToNumber := toNumber } ctx v =
          (.error (.runtime_error "Value is not a number"), ctx)) ∧
    (∀ d ctx1, E.JSValueIsNumber ctx v = true →
      E.JSValueToNumber ctx v = ((d, NULL), ctx1) →
      RJSValidatedValueToNumber E ctx v = (.ok d, ctx1)) := by
  constructor
  · intro hnum
    constructor
    · simp [RJSValidatedValueToNumber, hnum]
    · intro toNumber
      simp [RJSValidatedValueToNumber, hnum]
  · intro d ctx1 hnum hto
    rw [valueToNumber_of_isNumber E ctx ctx1 v d NULL hnum hto]
    simp

/-- Witness of C4: the string (handle 3) and the number 5 (handle 2) of the sample engine. -/
theorem valueToNumber_spec_witness :
    sampleEngine.JSValueIsNumber 0 3 = false ∧
    RJSValidatedValueToNumber sampleEngine 0 3 =
      (.error (.runtime_error "Value is not a number"), 0) ∧
    sampleEngine.JSValueIsNumber 0 2 = true ∧
    RJSValidatedValueToNumber sampleEngine 0 2 = (.ok (.finite 5), 1) :=
  ⟨by decide, ((valueToNumber_spec sampleEngine 0 3).1 (by decide)).1, by decide,
    (valueToNumber_spec sampleEngine 0 2).2 (.finite 5) 1 (by decide) (by decide)⟩

/-- C7 (as stated, refuted): the empty object 5 of the sample engine lacks `age`; the
failure message is "Object property is undefined", which does not contain `age` and is
the same as for the missing property `name`; with a custom message the failure message
is that custom text. -/
theorem objectProperty_message_omits_name :
    sampleEngine.JSObjectGetProperty 0 5 "age" = ((1, NULL), 1) ∧
    sampleEngine.JSValueIsUndefined 1 1 = true ∧
    RJSValidatedObjectProperty sampleEngine 0 5 "age" none =
      (.error (.runtime_error "Object property is undefined"), 1) ∧
    ¬ ("age".data <:+: "Object property is undefined".data) ∧
    RJSValidatedObjectProperty sampleEngine 0 5 "name" none =
      RJSValidatedObjectProperty sampleEngine 0 5 "age" none ∧
    RJSValidatedObjectProperty sampleEngine 0 5 "age" (some "Invalid schema") =
      (.error (.runtime_error "Invalid schema"), 1) := by
  decide

/-- C7 (amended): when the lookup of `p` on `obj` yields `undefined` without an engine
exception, `RJSValidatedObjectProperty` fails with a `std::runtime_error` whose message is
the custom message when one is supplied and "Object property is undefined" otherwise; it
never returns an object. -/
theorem objectProperty_undefined {σ : Type} (E : Engine σ) (ctx ctx1 : σ)
    (obj : JSObjectRef) (p : JSStringRef) (err : Option String) (pv : JSValueRef)
    (hget : E.JSObjectGetProperty ctx obj p = ((pv, NULL), ctx1))
    (hundef : E.JSValueIsUndefined ctx1 pv = true) :
    RJSValidatedObjectProperty E ctx obj p err =
      (.error (.runtime_error
        (match err with
         | none => "Object property is undefined"
         | some custom => custom)), ctx1) ∧
    ∀ (o : JSObjectRef) (c : σ), RJSValidatedObjectProperty E ctx obj p err ≠ (.ok o, c) := by
  have h : RJSValidatedObjectProperty E ctx obj p err =
      (.error (.runtime_error
        (match err with
         | none => "Object property is undefined"
         | some custom => custom)), ctx1) := by
    cases err <;>
      simp [RJSValidatedObjectProperty, RJSValidatedPropertyValue, hget, hundef]
  refine ⟨h, ?_⟩
  intro o c hc
  rw [h] at hc
  cases hc

/-- Witness of C7: the missing property `age` of the empty object 5 of the sample engine. -/
theorem objectProperty_undefined_witness :
    sampleEngine.JSObjectGetProperty 0 5 "age" = ((1, NULL), 1) ∧
    sampleEngine.JSValueIsUndefined 1 1 = true ∧
    RJSValidatedObjectProperty sampleEngine 0 5 "age" (some "Invalid schema") =
      (.error (.runtime_error "Invalid schema"), 1) :=
  ⟨by decide, by decide,
    (objectProperty_undefined sampleEngine 0 1 5 "age" (some "Invalid schema") 1
      (by decide) (by decide)).1⟩

/-- C8 (as stated, refuted): object 7 of the sample engine has the `length` 2^64, a
non-negative integer and a number; the conversion to `size_t` has no defined result, and
the call does not return 2^64. -/
theorem arrayLength_unrepresentable :
    sampleEngine.JSObjectGetProperty 0 7 "length" = ((6, NULL), 1) ∧
    sampleEngine.JSValueIsNumber 1 6 = true ∧
    sampleEngine.JSValueToNumber 1 6 = ((.finite 18446744073709551616, NULL), 2) ∧
    RJSValidatedArrayLength sampleEngine 0 7 = (.ok none, 2) ∧
    (RJSValidatedArrayLength sampleEngine 0 7).1 ≠ .ok (some 18446744073709551616) := by
  decide

/-- C8 (amended): let the lookup of `length` on `obj` yield `lv` without an engine
exception.  If `lv` is the number `n` for a non-negative integer `n < 2^64`,
`RJSValidatedArrayLength` returns exactly `n`.  If `lv` is not a number (as the
`undefined` of an absent property is not), it fails with
`std::runtime_error("Missing property 'length'")` and returns no size.  If `lv` is a
number, the nested `RJSValidatedValueToNumber` goes past its own number check: its outcome,
and that of the whole call, is decided by `JSValueToNumber` alone. -/
theorem arrayLength_spec {σ : Type} (E : Engine σ) (ctx ctx1 : σ) (obj : JSObjectRef)
    (lv : JSValueRef)
    (hget : E.JSObjectGetProperty ctx obj "length" = ((lv, NULL), ctx1)) :
    (∀ (n : Nat) (ctx2 : σ), E.JSValueIsNumber ctx1 lv = true →
      E.JSValueToNumber ctx1 lv = ((.finite (n : ℚ), NULL), ctx2) → n < 2 ^ SIZE_WIDTH →
      RJSValidatedArrayLength E ctx obj = (.ok (some n), ctx2)) ∧
    (E.JSValueIsNumber ctx1 lv = false →
      RJSValidatedArrayLength E ctx obj =
        (.error (.runtime_error "Missing property 'length'"), ctx1) ∧
      ∀ (size : Option Nat) (c : σ), RJSValidatedArrayLength E ctx obj ≠ (.ok size, c)) ∧
    (∀ (d : Double) (e : JSValueRef) (ctx2 : σ), E.JSValueIsNumber ctx1 lv = true →
      E.JSValueToNumber ctx1 lv = ((d, e), ctx2) →
      RJSValidatedValueToNumber E ctx1 lv =
        (if e ≠ NULL then throwRJSException E ctx2 e else (.ok d, ctx2)) ∧
      RJSValidatedArrayLength E ctx obj =
        (if e ≠ NULL then throwRJSException E ctx2 e
         else (.ok (doubleToSizeT d), ctx2))) := by
  refine ⟨?_, ?_, ?_⟩
  · intro n ctx2 hnum hto hn
    rw [arrayLength_of_isNumber E ctx ctx1 ctx2 obj lv _ NULL hget hnum hto]
    simp [doubleToSizeT_natCast n hn]
  · intro hnum
    have h : RJSValidatedArrayLength E ctx obj =
        (.error (.runtime_error "Missing property 'length'"), ctx1) := by
      simp [RJSValidatedArrayLength, hget, hnum]
    refine ⟨h, ?_⟩
    intro size c hc
    rw [h] at hc
    cases hc
  · intro d e ctx2 hnum hto
    exact ⟨valueToNumber_of_isNumber E ctx1 ctx2 lv d e hnum hto,
      arrayLength_of_isNumber E ctx ctx1 ctx2 obj lv d e hget hnum hto⟩

/-- Witness of C8: object 4 of the sample engine, whose `length` is 5. -/
theorem arrayLength_spec_witness :
    sampleEngine.JSObjectGetProperty 0 4 "length" = ((2, NULL), 1) ∧
    sampleEngine.JSValueIsNumber 1 2 = true ∧
    sampleEngine.JSValueToNumber 1 2 = ((.finite ((5 : Nat) : ℚ), NULL), 2) ∧
    5 < 2 ^ SIZE_WIDTH ∧
    RJSValidatedArrayLength sampleEngine 0 4 = (.ok (some 5), 2) :=
  ⟨by decide, by decide, by decide, by decide,
    (arrayLength_spec sampleEngine 0 1 4 2 (by decide)).1 5 2 (by decide) (by decide)
      (by decide)⟩

end RJS
